import Mathlib

/-!
Shallow embedding of the Convertifile conversion pipeline.

The Python sources embedded here are:
  * `api_routes/convert.py`  — intake gate (filename screening, sanitization,
    signature screening, MIME allow-list, size ceilings, settings resolver,
    request handler);
  * `api_routes/status.py`   — status reconciler (`get_status`);
  * `workers/tasks.py`       — worker task (`convert_file_task`) and the
    reaper (`cleanup_temp_files`).

External primitives that the Python code calls (CPython's
`unicodedata.normalize('NFKD', ...)`, `str.lower`, and the unicode-aware
`\w` class of the `re` module) are threaded through as an explicit
parameter record `PyUni`; the instance `asciiPy` below coincides with the
CPython behaviour on all-ASCII strings, and every concrete input we
evaluate at is all-ASCII.  Stateful pieces (filesystem directory listings,
the Celery queue view, the artifact write) are passed and returned as
explicit state.  Machine integers do not occur (Python ints are unbounded),
so `Nat`/`Int` are exact.
-/

namespace ConvertiFile

/-- Record of the unicode-dependent CPython primitives used by the pipeline:
`nfkd` models `unicodedata.normalize('NFKD', -)`, `lower` models `str.lower`,
and `isWord` models membership in the `re` module's `\w` character class. -/
structure PyUni where
  nfkd : String → String
  lower : String → String
  isWord : Char → Bool

/-- ASCII instantiation of `PyUni`.  On all-ASCII strings NFKD normalization
is the identity, `str.lower` maps A-Z to a-z and fixes the rest, and `\w`
is `[A-Za-z0-9_]`; thus `asciiPy` agrees with CPython on every all-ASCII
input (all concrete inputs evaluated in this file are all-ASCII). -/
def asciiLower (s : String) : String :=
  String.mk (s.data.map (fun c =>
    if 65 ≤ c.toNat ∧ c.toNat ≤ 90 then Char.ofNat (c.toNat + 32) else c))

def asciiIsWord (c : Char) : Bool :=
  decide (97 ≤ c.toNat ∧ c.toNat ≤ 122) || decide (65 ≤ c.toNat ∧ c.toNat ≤ 90) ||
  decide (48 ≤ c.toNat ∧ c.toNat ≤ 57) || c == '_'

def asciiPy : PyUni := ⟨id, asciiLower, asciiIsWord⟩

/-- Boolean prefix test on lists (used to model `str.startswith` and
substring search without relying on string-internal positions). -/
def isPrefixB [BEq α] : List α → List α → Bool
  | [], _ => true
  | _ :: _, [] => false
  | a :: as, b :: bs => a == b && isPrefixB as bs

/-- Boolean contiguous-subsequence test, modelling Python's `in` on
`str`/`bytes`. -/
def hasSubB [BEq α] (pat : List α) : List α → Bool
  | [] => isPrefixB pat []
  | a :: rest => isPrefixB pat (a :: rest) || hasSubB pat rest

/-- Model of `str.startswith`. -/
def pyStartsWith (s pre : String) : Bool := isPrefixB pre.data s.data

/-- Model of `str.endswith` (used for the `$`-anchored regex patterns). -/
def pyEndsWith (s suf : String) : Bool := isPrefixB suf.data.reverse s.data.reverse

/-- Model of `pat in s` for strings. -/
def containsSub (s pat : String) : Bool := hasSubB pat.data s.data

/-- Remove the first occurrence of `pat`, modelling
`s.replace(pat, "", 1)`. -/
def removeFirstB [BEq α] (pat : List α) : List α → List α
  | [] => []
  | a :: rest =>
    if isPrefixB pat (a :: rest) then (a :: rest).drop pat.length
    else a :: removeFirstB pat rest

def pyRemoveFirst (s pat : String) : String := String.mk (removeFirstB pat.data s.data)

/-- Model of `s.rsplit('.', 1)`: the part before the last dot, and — when a
dot exists — `some` of the part after it.  `(s, none)` means no dot. -/
def rsplitLast : List Char → List Char × Option (List Char)
  | [] => ([], Option.none)
  | c :: rest =>
    match rsplitLast rest with
    | (r, some e) => (c :: r, some e)
    | (r, Option.none) => if c == '.' then ([], some rest) else (c :: r, Option.none)

/-- Model of Python's slice `s[:k]` for an `Int` bound `k`: a nonnegative
bound takes a prefix, a negative bound drops `-k` elements from the end
(clamped at the empty list). -/
def pyTakeTo (s : List Char) (k : Int) : List Char :=
  if 0 ≤ k then s.take k.toNat else s.take ((s.length : Int) + k).toNat

/-- Collapse every maximal run of the character `c` to a single copy,
modelling `re.sub(c + '{2,}', c, -)`. -/
def collapseRuns (c : Char) : List Char → List Char
  | [] => []
  | [a] => [a]
  | a :: b :: rest =>
    if a == c && b == c then collapseRuns c (b :: rest)
    else a :: collapseRuns c (b :: rest)

/-- The characters stripped from both ends of the stem
(`name.strip(' ._')`). -/
def isStripChar (c : Char) : Bool := c == ' ' || c == '.' || c == '_'

/-- Model of `name.strip(' ._')`. -/
def pyStrip (l : List Char) : List Char :=
  ((l.dropWhile isStripChar).reverse.dropWhile isStripChar).reverse

/- ------------------------------------------------------------------
convert.py: constants and the intake gate
------------------------------------------------------------------ -/

def MAX_FILE_SIZE_IMAGE : Nat := 200 * 1024 * 1024
def MAX_FILE_SIZE_VIDEO : Nat := 1024 * 1024 * 1024
def MAX_FILE_SIZE_AUDIO : Nat := 500 * 1024 * 1024
def MAX_FILE_SIZE_DOC : Nat := 100 * 1024 * 1024

def ALLOWED_MIME_PREFIXES : List String :=
  ["image/", "audio/", "video/", "application/pdf", "text/"]

/-- The `$`-anchored members of `SUSPICIOUS_PATTERNS`
(regexes of the form `\.xyz$`). -/
def SUSPICIOUS_END_PATTERNS : List String :=
  [".exe", ".sh", ".bat", ".cmd", ".php", ".js", ".dll", ".vbs", ".py"]

/-- The alternation pattern `\.(exe|sh|bat|cmd|php|js|dll)\.` spelt out:
a match is the presence of one of these substrings. -/
def SUSPICIOUS_DOUBLE_EXT : List String :=
  [".exe.", ".sh.", ".bat.", ".cmd.", ".php.", ".js.", ".dll."]

/-- The unanchored literal members of `SUSPICIOUS_PATTERNS`
(`<script`, `eval\(`, `system\(`, `exec\(`). -/
def SUSPICIOUS_SUBSTRINGS : List String :=
  ["<script", "eval(", "system(", "exec("]

/-- Model of `is_suspicious_filename`: lower-case the name, then search each
pattern of `SUSPICIOUS_PATTERNS` (the `re.search` of an `$`-anchored pattern
is a suffix test; the others are substring tests). -/
def is_suspicious_filename (py : PyUni) (filename : String) : Bool :=
  let f := py.lower filename
  SUSPICIOUS_END_PATTERNS.any (fun p => pyEndsWith f p) ||
  SUSPICIOUS_DOUBLE_EXT.any (fun p => containsSub f p) ||
  SUSPICIOUS_SUBSTRINGS.any (fun p => containsSub f p)

/-- Model of `sanitize_filename`, step for step:
normalize (NFKD), `rsplit('.', 1)` into stem and lowercased extension,
replace every character outside `[\w\-. ]` in the stem by `_`, collapse
runs of `_` and of spaces, truncate the stem to
`100 - len(extension) - 1` (Python slice semantics, which are end-relative
when that bound is negative), strip `' ._'` from both ends, substitute the
default stem when empty, and re-attach the extension when it is nonempty. -/
def sanitize_filename (py : PyUni) (filename : String) : String :=
  let fn := (py.nfkd filename).data
  let parts := rsplitLast fn
  let name := parts.1
  let extension : List Char :=
    match parts.2 with
    | some e => (py.lower (String.mk e)).data
    | Option.none => []
  let name := name.map (fun c =>
    if py.isWord c || c == '-' || c == '.' || c == ' ' then c else '_')
  let name := collapseRuns '_' name
  let name := collapseRuns ' ' name
  let max_name_length : Int :=
    if extension ≠ [] then 100 - (extension.length : Int) - 1 else 100
  let name := pyTakeTo name max_name_length
  let name := pyStrip name
  let name := if name = [] then "converted_image".data else name
  if extension ≠ [] then String.mk (name ++ '.' :: extension) else String.mk name

/-- The format lists declared (identically) inside both `get_file_category`
and `get_conversion_settings`. -/
def audio_formats : List String := ["mp3", "wav", "flac", "aac", "ogg", "m4a", "opus"]

def video_formats : List String := ["mp4", "mov", "avi", "mkv", "webm", "flv", "wmv"]

def doc_formats : List String := ["pdf", "docx", "text", "txt"]

/-- Model of `get_file_category`. -/
def get_file_category (py : PyUni) (mime_type convert_to : String) : String :=
  if pyStartsWith mime_type "image/" then "image"
  else if pyStartsWith mime_type "video/" || video_formats.contains (py.lower convert_to) then "video"
  else if pyStartsWith mime_type "audio/" || audio_formats.contains (py.lower convert_to) then "audio"
  else if pyStartsWith mime_type "application/pdf" || pyStartsWith mime_type "text/"
          || doc_formats.contains (py.lower convert_to) then "doc"
  else "image"

/-- A synchronous HTTP error raised by the intake gate
(`HTTPException(status_code, detail)`). -/
structure HttpError where
  status_code : Nat
  detail : String
deriving DecidableEq

/-- Dynamically-typed Python values as they occur in the pipeline's
dictionaries (form fields, settings bundles, queue metadata). -/
inductive PyVal where
  | none : PyVal
  | bool (b : Bool) : PyVal
  | int (n : Int) : PyVal
  | str (s : String) : PyVal
  | dict (entries : List (String × PyVal)) : PyVal

/-- Python truthiness of a `PyVal`. -/
def pyTruthy : PyVal → Bool
  | PyVal.none => false
  | PyVal.bool b => b
  | PyVal.int n => n != 0
  | PyVal.str s => s != ""
  | PyVal.dict d => !d.isEmpty

/-- Model of `str(-)` on the values that reach it in `status.py`
(the repr of a dict is elided; no verified path inspects it). -/
def pyStr : PyVal → String
  | PyVal.none => "None"
  | PyVal.bool true => "True"
  | PyVal.bool false => "False"
  | PyVal.int n => toString n
  | PyVal.str s => s
  | PyVal.dict _ => "dict"

/-- The flat multipart option surface of `POST /convert`: one field per
`Form(...)` parameter of `convert_file`. -/
structure FormData where
  remove_metadata : PyVal
  compression : PyVal
  quality : PyVal
  optimize : PyVal
  bmp_compression : PyVal
  tga_compression : PyVal
  pdf_page_size : PyVal
  avif_speed : PyVal
  audio_remove_metadata : PyVal
  audio_codec : PyVal
  audio_bitrate : PyVal
  audio_sample_rate : PyVal
  audio_channels : PyVal
  audio_compression_level : PyVal
  video_remove_metadata : PyVal
  video_codec : PyVal
  video_crf : PyVal
  video_profile : PyVal
  video_level : PyVal
  video_speed : PyVal
  video_bitrate : PyVal
  video_fps : PyVal
  dpi : PyVal
  doc_quality : PyVal

/-- The `Form(...)` defaults of the endpoint signature. -/
def defaultFormData : FormData :=
  ⟨PyVal.bool false, PyVal.bool false, PyVal.none, PyVal.bool true, PyVal.bool true,
   PyVal.bool true, PyVal.str "A4", PyVal.int 6,
   PyVal.bool false, PyVal.none, PyVal.none, PyVal.none, PyVal.int 2, PyVal.none,
   PyVal.bool false, PyVal.none, PyVal.none, PyVal.none, PyVal.none, PyVal.none,
   PyVal.none, PyVal.none,
   PyVal.int 200, PyVal.none⟩

/-- Model of `get_conversion_settings`: classify the target format by the
fixed lists and copy exactly the fields of that category out of the flat
form data (the returned dict is a key-value list in source order). -/
def get_conversion_settings (py : PyUni) (convert_to : String) (form_data : FormData) :
    List (String × PyVal) :=
  if audio_formats.contains (py.lower convert_to) then
    [("remove_metadata", form_data.audio_remove_metadata),
     ("codec", form_data.audio_codec),
     ("bitrate", form_data.audio_bitrate),
     ("sample_rate", form_data.audio_sample_rate),
     ("channels", form_data.audio_channels),
     ("compression_level", form_data.audio_compression_level)]
  else if video_formats.contains (py.lower convert_to) then
    [("remove_metadata", form_data.video_remove_metadata),
     ("codec", form_data.video_codec),
     ("crf", form_data.video_crf),
     ("profile", form_data.video_profile),
     ("level", form_data.video_level),
     ("speed", form_data.video_speed),
     ("bitrate", form_data.video_bitrate),
     ("fps", form_data.video_fps)]
  else if doc_formats.contains (py.lower convert_to) then
    [("dpi", form_data.dpi),
     ("quality", form_data.doc_quality)]
  else
    [("remove_metadata", form_data.remove_metadata),
     ("compression", form_data.compression),
     ("quality", form_data.quality),
     ("optimize", form_data.optimize),
     ("bmp_compression", form_data.bmp_compression),
     ("tga_compression", form_data.tga_compression),
     ("pdf_page_size", form_data.pdf_page_size),
     ("avif_speed", form_data.avif_speed)]

/-- Model of `check_file_size`: resolve the category ceiling and raise 413
when the byte length exceeds it. -/
def check_file_size (py : PyUni) (contents : List Nat) (mime_type convert_to : String) :
    Except HttpError Unit :=
  let category := get_file_category py mime_type convert_to
  let max_size :=
    if category == "image" then MAX_FILE_SIZE_IMAGE
    else if category == "video" then MAX_FILE_SIZE_VIDEO
    else if category == "audio" then MAX_FILE_SIZE_AUDIO
    else if category == "doc" then MAX_FILE_SIZE_DOC
    else MAX_FILE_SIZE_IMAGE
  if contents.length > max_size then
    Except.error ⟨413, "File too large. Max size allowed for " ++ category ++ " is "
      ++ toString (max_size / (1024 * 1024)) ++ "MB"⟩
  else Except.ok ()

/-- Model of `check_mime_type`, applied to the MIME string that libmagic
sniffed from the content bytes: accept when it extends an allow-listed
prefix, otherwise raise 400. -/
def check_mime_type (sniffed : String) : Except HttpError String :=
  if ALLOWED_MIME_PREFIXES.any (fun p => pyStartsWith sniffed p) then Except.ok sniffed
  else Except.error ⟨400, "Unsupported file type."⟩

/-- The binary signature deny-list of `check_suspicious_signatures`
(`MZ`, `\x7fELF`, `#!`, `<?php`, `<script` as byte sequences). -/
def suspicious_signatures : List (List Nat) :=
  [[77, 90], [127, 69, 76, 70], [35, 33], [60, 63, 112, 104, 112],
   [60, 115, 99, 114, 105, 112, 116]]

/-- Whether some deny-listed signature occurs in the first 100 bytes. -/
def sigHit (contents : List Nat) : Bool :=
  suspicious_signatures.any (fun sig => hasSubB sig (contents.take 100))

/-- Model of `check_suspicious_signatures`. -/
def check_suspicious_signatures (contents : List Nat) : Except HttpError Unit :=
  if sigHit contents then
    Except.error ⟨400, "File rejected due to possible malicious content"⟩
  else Except.ok ()

/-- Successful JSON body of `POST /convert`. -/
structure ConvertResponse where
  celery_id : String
  message : String
deriving DecidableEq

/-- Observable side effects of the request handler, in order: reading the
upload's bytes (`await file.read()`) and handing the job to the queue
(`convert_file_task.delay(...)`). -/
inductive Ev where
  | read : Ev
  | enqueue (sanitized_filename : String) (convert_to : String)
      (conversion_settings : List (String × PyVal)) : Ev

/-- Model of the `convert_file` endpoint body.  `sniff` stands for libmagic
(`magic.Magic(mime=True).from_buffer`), `new_task_id` for the id Celery
assigns at `.delay`.  The returned trace lists the effects that actually
happened before the response was produced. -/
def convert_file (py : PyUni) (sniff : List Nat → String) (new_task_id : String)
    (filename : String) (contents : List Nat) (convert_to : String) (fd : FormData) :
    Except HttpError ConvertResponse × List Ev :=
  if is_suspicious_filename py filename then
    (Except.error ⟨400, "Unallowed filename."⟩, [])
  else
    let sanitized_filename := sanitize_filename py filename
    match check_suspicious_signatures contents with
    | Except.error e => (Except.error e, [Ev.read])
    | Except.ok _ =>
      match check_mime_type (sniff contents) with
      | Except.error e => (Except.error e, [Ev.read])
      | Except.ok mime_type =>
        match check_file_size py contents mime_type convert_to with
        | Except.error e => (Except.error e, [Ev.read])
        | Except.ok _ =>
          let conversion_settings := get_conversion_settings py convert_to fd
          (Except.ok ⟨new_task_id, "Conversion starting"⟩,
           [Ev.read, Ev.enqueue sanitized_filename convert_to conversion_settings])

/- ------------------------------------------------------------------
workers/tasks.py: the conversion task
------------------------------------------------------------------ -/

/-- The extension table of `workers/tasks.py`.  The source dict defines
only the key `"images"`; the lookup function returns `none` for every
other key, which is the `KeyError` case. -/
def imagesExtensions : List String :=
  ["jpg", "jpeg", "png", "gif", "webp", "bmp", "tiff", "ico", "aiff", "heic",
   "avif", "pdf", "ppm", "pbm", "tga", "sgi"]

def SUPPORTED_EXTENSIONS (key : String) : Option (List String) :=
  if key == "images" then some imagesExtensions else Option.none

/-- Python renders `str(KeyError(k))` as the repr of the key, i.e. the key
wrapped in single quotes. -/
def pyQuote (k : String) : String :=
  String.singleton (Char.ofNat 39) ++ k ++ String.singleton (Char.ofNat 39)

/-- Dict subscript `SUPPORTED_EXTENSIONS[key]`: the value when the key is
present, a `KeyError` (stringified as by `str(e)`) otherwise. -/
def dictGet (key : String) : Except String (List String) :=
  match SUPPORTED_EXTENSIONS key with
  | some v => Except.ok v
  | Option.none => Except.error (pyQuote key)

/-- The four external Converter Capabilities
(`imageconvert.convert_image`, `audioconvert.convert_audio`,
`videoconvert.convert_video`, `documentconvert.convert_document`).
A raised exception is an `Except.error` carrying `str(e)`. -/
structure Caps where
  image : List Nat → String → List (String × PyVal) → Except String (List Nat)
  audio : List Nat → String → List (String × PyVal) → Except String (List Nat)
  video : List Nat → String → List (String × PyVal) → Except String (List Nat)
  document : List Nat → String → List (String × PyVal) → Except String (List Nat)

/-- `filename.split('.')[-1].lower()`: the text after the last dot (the
whole name when there is no dot), lowercased. -/
def sourceExt (py : PyUni) (filename : String) : String :=
  py.lower (match rsplitLast filename.data with
    | (_, some e) => String.mk e
    | (whole, Option.none) => String.mk whole)

/-- The `match ext` dispatch inside the worker's `try` block.  Each guard
`ext in SUPPORTED_EXTENSIONS[k]` first subscripts the dict (raising
`KeyError` when the key is absent — only `"images"` is present) and the
final case raises `ValueError`. -/
def convertDispatch (caps : Caps) (ext : String) (contents : List Nat)
    (convert_to : String) (settings : List (String × PyVal)) : Except String (List Nat) :=
  match dictGet "images" with
  | Except.error e => Except.error e
  | Except.ok images =>
    if images.contains ext then caps.image contents convert_to settings
    else match dictGet "audio" with
    | Except.error e => Except.error e
    | Except.ok audio =>
      if audio.contains ext then caps.audio contents convert_to settings
      else match dictGet "video" with
      | Except.error e => Except.error e
      | Except.ok video =>
        if video.contains ext then caps.video contents convert_to settings
        else match dictGet "documents" with
        | Except.error e => Except.error e
        | Except.ok documents =>
          if documents.contains ext then caps.document contents convert_to settings
          else Except.error ("Unsupported file type: ." ++ ext)

/-- The structured dict a worker run returns. -/
inductive TaskResult where
  | completed (filename file_id original_name : String) : TaskResult
  | failed (error : String) : TaskResult
deriving DecidableEq

/-- Model of `convert_file_task`: derive the extension, dispatch inside the
`try` block, and either write the artifact `{task_id}_{converted_filename}`
and return the completed descriptor, or catch the exception and return the
structured failed result.  The second component is the artifact write
(`none` when nothing was written). -/
def convert_file_task (py : PyUni) (caps : Caps) (task_id filename : String)
    (contents : List Nat) (convert_to : String)
    (conversion_settings : List (String × PyVal)) :
    TaskResult × Option (String × List Nat) :=
  let ext := sourceExt py filename
  let converted_filename := String.mk (rsplitLast filename.data).1 ++ "." ++ convert_to
  match convertDispatch caps ext contents convert_to conversion_settings with
  | Except.ok result =>
    let stored := task_id ++ "_" ++ converted_filename
    (TaskResult.completed stored task_id converted_filename, some (stored, result))
  | Except.error e => (TaskResult.failed e, Option.none)

/- ------------------------------------------------------------------
api_routes/status.py: the status reconciler
------------------------------------------------------------------ -/

/-- One entry of the artifact directory listing, with the
`os.path.isfile` verdict. -/
structure TempEntry where
  name : String
  isFile : Bool
deriving DecidableEq

/-- Celery's view of one task, as `AsyncResult` exposes it:
`ready()`, `successful()`, `result`, `state`, `info`. -/
structure QueueView where
  ready : Bool
  successful : Bool
  result : PyVal
  state : String
  info : PyVal

/-- The JSON bodies `get_status` can return, one constructor per literal
dict shape in the source. -/
inductive StatusResponse where
  | completed (file_id filename original_name : String) : StatusResponse
  | queueResult (d : PyVal) : StatusResponse
  | failed (error : String) : StatusResponse
  | running (status : String) (meta : Option PyVal) : StatusResponse

/-- The first directory entry that is a file and starts with the task id
(the loop `for f in os.listdir(...)` returning on the first match). -/
def findMatch (task_id : String) (dir : List TempEntry) : Option TempEntry :=
  dir.find? (fun e => pyStartsWith e.name task_id && e.isFile)

/-- Whether `'message' in info` holds for a dict. -/
def dictHasMessage : PyVal → Bool
  | PyVal.dict d => d.any (fun kv => kv.1 == "message")
  | _ => false

/-- The part of `get_status` after the first artifact check: consult the
queue, re-check the artifact store when the queue says finished, and
otherwise report the (normalized) running state. -/
def statusFromQueue (py : PyUni) (task_id : String) (dir : List TempEntry)
    (q : QueueView) : StatusResponse :=
  if q.ready then
    match (if dir.any (fun e => e.isFile && pyStartsWith e.name task_id)
           then findMatch task_id dir else Option.none) with
    | some e =>
      StatusResponse.completed task_id e.name (pyRemoveFirst e.name (task_id ++ "_"))
    | Option.none =>
      if q.successful then
        match q.result with
        | PyVal.dict d => StatusResponse.queueResult (PyVal.dict d)
        | r => StatusResponse.queueResult
            (PyVal.dict [("status", PyVal.str "completed"), ("result", r)])
      else
        StatusResponse.failed (if pyTruthy q.result then pyStr q.result else "Unknown error")
  else
    let st := py.lower q.state
    if pyTruthy q.info then
      StatusResponse.running (if dictHasMessage q.info then "processing" else st) (some q.info)
    else
      StatusResponse.running st Option.none

/-- Model of `get_status`: the artifact-presence check comes first and is
authoritative; only when no artifact matches does the queue's view
matter. -/
def get_status (py : PyUni) (task_id : String) (dir : List TempEntry)
    (q : QueueView) : StatusResponse :=
  if dir.any (fun e => e.isFile && pyStartsWith e.name task_id) then
    match findMatch task_id dir with
    | some e =>
      StatusResponse.completed task_id e.name (pyRemoveFirst e.name (task_id ++ "_"))
    | Option.none => statusFromQueue py task_id dir q
  else statusFromQueue py task_id dir q

/- ------------------------------------------------------------------
workers/tasks.py: the reaper
------------------------------------------------------------------ -/

/-- Kind of a directory entry, matching the two branches
`item.is_file()` / `item.is_dir()` of the reaper loop. -/
inductive FsKind where
  | file : FsKind
  | dir : FsKind
deriving DecidableEq

/-- One entry of the temp directory as the reaper sees it:
name, kind, and `st_mtime`. -/
structure FsEntry where
  name : String
  kind : FsKind
  mtime : Int
deriving DecidableEq

/-- `timeout = 15 * 60` seconds. -/
def cleanupTimeout : Int := 15 * 60

/-- The reaper loop over the directory entries.  `vanish e` models
`item.unlink()` raising because the entry disappeared concurrently; the
`except` clause swallows it (the entry is gone either way, but it is not
counted).  Directories are removed with `shutil.rmtree(ignore_errors=True)`
and counted.  Returns (entries still present, `deleted_count`). -/
def cleanupLoop (now : Int) (vanish : String → Bool) :
    List FsEntry → List FsEntry × Nat
  | [] => ([], 0)
  | e :: rest =>
    let r := cleanupLoop now vanish rest
    match e.kind with
    | FsKind.file =>
      if now - e.mtime > cleanupTimeout then
        if vanish e.name then (r.1, r.2) else (r.1, r.2 + 1)
      else (e :: r.1, r.2)
    | FsKind.dir =>
      if now - e.mtime > cleanupTimeout then (r.1, r.2 + 1)
      else (e :: r.1, r.2)

/-- Outcome of one reaper pass (`cleanup_temp_files`): the surviving
directory entries and the returned status dict's fields. -/
structure CleanupResult where
  remaining : List FsEntry
  deleted_count : Nat
  status : String
  message : Option String
deriving DecidableEq

/-- Model of `cleanup_temp_files`: nothing happens when the directory does
not exist; otherwise every entry's age is compared against the fixed
15-minute TTL as in the source loop. -/
def cleanup_temp_files (now : Int) (dirExists : Bool) (entries : List FsEntry)
    (vanish : String → Bool) : CleanupResult :=
  if dirExists then
    let r := cleanupLoop now vanish entries
    ⟨r.1, r.2, "success", Option.none⟩
  else
    ⟨entries, 0, "success", some "No temp directory found"⟩

/- ------------------------------------------------------------------
Spec-side definitions used to state the claims
------------------------------------------------------------------ -/

/-- The pure target-format fallback of `get_file_category`: the category
read off the fixed membership tables alone, in the branch order of the
source (video, audio, document, default image). -/
def targetFormatCategory (py : PyUni) (convert_to : String) : String :=
  if video_formats.contains (py.lower convert_to) then "video"
  else if audio_formats.contains (py.lower convert_to) then "audio"
  else if doc_formats.contains (py.lower convert_to) then "doc"
  else "image"

/- ------------------------------------------------------------------
C1: intake category determination
------------------------------------------------------------------ -/

/-- C1, counterexample: the intake category is NOT determined solely from
the source file.  For one and the same sniffed MIME type
(`application/zip`, matching no recognized prefix) the category flips from
`video` to `audio` purely because the requested target format changes from
`mp4` to `mp3`. -/
theorem c1_category_depends_on_target :
    get_file_category asciiPy "application/zip" "mp4" = "video" ∧
    get_file_category asciiPy "application/zip" "mp3" = "audio" ∧
    get_file_category asciiPy "application/zip" "mp4" ≠
      get_file_category asciiPy "application/zip" "mp3" := by
  refine ⟨rfl, rfl, ?_⟩
  decide

/-- C1, amended: the category is derived from the sniffed MIME type when
that is an image type, and — when the MIME type matches none of the
recognized prefixes — as a fallback from the requested target format via
the fixed membership tables (video, audio, document lists, defaulting to
image). -/
theorem c1_category_fallback (py : PyUni) (mime_type convert_to : String) :
    (pyStartsWith mime_type "image/" = true →
        get_file_category py mime_type convert_to = "image") ∧
    (pyStartsWith mime_type "image/" = false →
     pyStartsWith mime_type "video/" = false →
     pyStartsWith mime_type "audio/" = false →
     pyStartsWith mime_type "application/pdf" = false →
     pyStartsWith mime_type "text/" = false →
        get_file_category py mime_type convert_to =
          targetFormatCategory py convert_to) := by
  constructor
  · intro h
    simp [get_file_category, h]
  · intro h1 h2 h3 h4 h5
    simp [get_file_category, targetFormatCategory, h1, h2, h3, h4, h5]

/-- Witness for `c1_category_fallback` at concrete inputs. -/
theorem c1_category_fallback_witness :
    get_file_category asciiPy "image/png" "mp4" = "image" ∧
    get_file_category asciiPy "application/zip" "mp3" =
      targetFormatCategory asciiPy "mp3" :=
  ⟨(c1_category_fallback asciiPy "image/png" "mp4").1 (by decide),
   (c1_category_fallback asciiPy "application/zip" "mp3").2
     (by decide) (by decide) (by decide) (by decide) (by decide)⟩

/- ------------------------------------------------------------------
C4: worker category re-derivation
------------------------------------------------------------------ -/

/-- Capabilities that all succeed, to show the failure below does not come
from a converter. -/
def okCaps : Caps :=
  ⟨fun _ _ _ => Except.ok [7], fun _ _ _ => Except.ok [8],
   fun _ _ _ => Except.ok [9], fun _ _ _ => Except.ok [10]⟩

/-- C4, evaluation at the failing inputs: `SUPPORTED_EXTENSIONS` defines
only the `"images"` table, so for an audio source (`song.mp3`) the guard
`ext in SUPPORTED_EXTENSIONS["audio"]` raises `KeyError('audio')` — the
job fails with error `'audio'` even though the audio capability would
succeed, and the audio converter is never invoked.  An extension outside
every table (`data.xyz`) produces the same `'audio'` error instead of the
unsupported-type message of the source's final `case _` branch. -/
theorem c4_worker_dispatch_keyerror :
    convert_file_task asciiPy okCaps "tid1" "song.mp3" [0, 1] "wav" [] =
      (TaskResult.failed (pyQuote "audio"), Option.none) ∧
    convert_file_task asciiPy okCaps "tid2" "data.xyz" [0, 1] "mp4" [] =
      (TaskResult.failed (pyQuote "audio"), Option.none) ∧
    TaskResult.failed (pyQuote "audio") ≠
      TaskResult.failed ("Unsupported file type: ." ++ sourceExt asciiPy "data.xyz") := by
  refine ⟨by decide, by decide, by decide⟩

/- ------------------------------------------------------------------
C5: sanitize_filename idempotence
------------------------------------------------------------------ -/

/-- A 100-character extension. -/
def longExtC : List Char := List.replicate 100 'c'

/-- The failing input for C5: stem `ab`, then a dot, then 100 `c`s. -/
def c5_input : String := String.mk ('a' :: 'b' :: '.' :: longExtC)

/-- C5, evaluation at the failing input: `sanitize_filename` is NOT
idempotent.  With a 100-character extension the stem bound
`100 - len(extension) - 1` is `-1`, and Python's `name[:-1]` drops a
character from the END of the stem, so every application shrinks the stem
further: the first pass maps `ab.cc…c` to `a.cc…c`, the second maps that to
`converted_image.cc…c`.  (The input is all-ASCII, where the `asciiPy`
primitives coincide with CPython's.) -/
theorem c5_sanitize_not_idempotent :
    sanitize_filename asciiPy c5_input = String.mk ('a' :: '.' :: longExtC) ∧
    sanitize_filename asciiPy (sanitize_filename asciiPy c5_input) =
      String.mk ("converted_image".data ++ '.' :: longExtC) ∧
    sanitize_filename asciiPy (sanitize_filename asciiPy c5_input) ≠
      sanitize_filename asciiPy c5_input := by
  refine ⟨by decide, by decide, by decide⟩

/- ------------------------------------------------------------------
C6: capability exceptions become structured failed results
------------------------------------------------------------------ -/

/-- C6: whenever the invoked Converter Capability raises (the image one —
the only capability the dispatch of `tasks.py` can reach, see
`c4_worker_dispatch_keyerror`), the worker catches the exception locally
and returns the structured result `{status: failed, error: str(e)}`, and
writes no artifact; the task function itself is total, so no exception
escapes to the task infrastructure. -/
theorem c6_capability_error_structured (py : PyUni) (caps : Caps)
    (task_id filename : String) (contents : List Nat) (convert_to : String)
    (settings : List (String × PyVal)) (e : String)
    (hext : imagesExtensions.contains (sourceExt py filename) = true)
    (herr : caps.image contents convert_to settings = Except.error e) :
    convert_file_task py caps task_id filename contents convert_to settings =
      (TaskResult.failed e, Option.none) := by
  have hmem : sourceExt py filename ∈ imagesExtensions := by
    simpa using hext
  unfold convert_file_task convertDispatch dictGet SUPPORTED_EXTENSIONS
  simp [hmem, herr]

/-- Witness capabilities whose image converter raises. -/
def imageFailCaps : Caps :=
  ⟨fun _ _ _ => Except.error "boom", fun _ _ _ => Except.ok [],
   fun _ _ _ => Except.ok [], fun _ _ _ => Except.ok []⟩

/-- Witness for `c6_capability_error_structured` at concrete inputs. -/
theorem c6_capability_error_structured_witness :
    convert_file_task asciiPy imageFailCaps "t1" "pic.png" [1] "webp" [] =
      (TaskResult.failed "boom", Option.none) :=
  c6_capability_error_structured asciiPy imageFailCaps "t1" "pic.png" [1] "webp" []
    "boom" (by decide) rfl

/- ------------------------------------------------------------------
C9: deny-listed filenames rejected before any work
------------------------------------------------------------------ -/

/-- C9: for every filename matching a deny-listed pattern, the endpoint
answers 400 with an empty effect trace — the upload's bytes are never read
and the queue is never touched, so no job id is issued.  This holds for
every instantiation of the unicode primitives, every sniffer, and every
form payload. -/
theorem c9_denylist_rejects_before_read (py : PyUni) (sniff : List Nat → String)
    (new_task_id filename : String) (contents : List Nat) (convert_to : String)
    (fd : FormData) (h : is_suspicious_filename py filename = true) :
    convert_file py sniff new_task_id filename contents convert_to fd =
      (Except.error ⟨400, "Unallowed filename."⟩, []) := by
  simp [convert_file, h]

/-- Witness for `c9_denylist_rejects_before_read` at the spec's Scenario B
input `evil.exe.jpg` (matched by the double-extension pattern). -/
theorem c9_denylist_rejects_before_read_witness :
    convert_file asciiPy (fun _ => "image/jpeg") "t9" "evil.exe.jpg" [255, 216]
      "jpg" defaultFormData = (Except.error ⟨400, "Unallowed filename."⟩, []) :=
  c9_denylist_rejects_before_read asciiPy (fun _ => "image/jpeg") "t9" "evil.exe.jpg"
    [255, 216] "jpg" defaultFormData (by decide)

/- ------------------------------------------------------------------
C3: MIME allow-list vs category matching
------------------------------------------------------------------ -/

/-- The bytes of `hello`, standing for plain text content: libmagic sniffs
such content as `text/plain`. -/
def helloBytes : List Nat := [104, 101, 108, 108, 111]

/-- C3, counterexample: a plain-text upload renamed `tiny.mp4` with target
`mp4` is NOT rejected.  The gate only tests the sniffed type against the
allow-listed prefixes, and `text/plain` extends the allow-listed `text/`,
so the request is accepted and enqueued (with the video settings bundle,
since the category fell back to the target format) instead of answering
400. -/
theorem c3_text_as_mp4_accepted :
    convert_file asciiPy (fun _ => "text/plain") "t3" "tiny.mp4" helloBytes "mp4"
        defaultFormData =
      (Except.ok ⟨"t3", "Conversion starting"⟩,
       [Ev.read, Ev.enqueue "tiny.mp4" "mp4"
          [("remove_metadata", PyVal.bool false), ("codec", PyVal.none),
           ("crf", PyVal.none), ("profile", PyVal.none), ("level", PyVal.none),
           ("speed", PyVal.none), ("bitrate", PyVal.none), ("fps", PyVal.none)]]) ∧
    (Except.ok ⟨"t3", "Conversion starting"⟩ : Except HttpError ConvertResponse) ≠
      Except.error ⟨400, "Unsupported file type."⟩ :=
  ⟨rfl, fun h => Except.noConfusion h⟩

/-- C3, amended: an upload is rejected with 400 for its content type
exactly when the sniffed MIME type matches none of the allow-listed
prefixes (`image/`, `audio/`, `video/`, `application/pdf`, `text/`) —
regardless of the declared extension; the rejection happens after the
bytes are read and before any queue interaction. -/
theorem c3_unlisted_mime_rejected (py : PyUni) (sniff : List Nat → String)
    (new_task_id filename : String) (contents : List Nat) (convert_to : String)
    (fd : FormData)
    (h1 : is_suspicious_filename py filename = false)
    (h2 : sigHit contents = false)
    (h3 : ALLOWED_MIME_PREFIXES.any (fun p => pyStartsWith (sniff contents) p) = false) :
    convert_file py sniff new_task_id filename contents convert_to fd =
      (Except.error ⟨400, "Unsupported file type."⟩, [Ev.read]) := by
  simp [convert_file, h1, check_suspicious_signatures, h2, check_mime_type, h3]

/-- Witness for `c3_unlisted_mime_rejected` at a content sniffed as
`application/zip` (no allow-listed prefix matches). -/
theorem c3_unlisted_mime_rejected_witness :
    convert_file asciiPy (fun _ => "application/zip") "t3b" "a.bin" [1, 2, 3] "bin"
        defaultFormData =
      (Except.error ⟨400, "Unsupported file type."⟩, [Ev.read]) :=
  c3_unlisted_mime_rejected asciiPy (fun _ => "application/zip") "t3b" "a.bin"
    [1, 2, 3] "bin" defaultFormData (by decide) (by decide) (by decide)

/- ------------------------------------------------------------------
C2: artifact presence is authoritative for get_status
------------------------------------------------------------------ -/

/-- C2: whenever some file in the artifact directory starts with the job
id, `get_status` answers `completed` with `file_id`, `filename` and
`original_name` — for EVERY queue view `q`, in particular one that still
reports the task as running/processing. -/
theorem c2_artifact_presence_wins (py : PyUni) (task_id : String)
    (dir : List TempEntry) (q : QueueView) (e : TempEntry)
    (h : findMatch task_id dir = some e) :
    get_status py task_id dir q =
      StatusResponse.completed task_id e.name (pyRemoveFirst e.name (task_id ++ "_")) := by
  have hp := List.find?_some h
  have hm := List.mem_of_find?_eq_some h
  have hany : dir.any (fun x => x.isFile && pyStartsWith x.name task_id) = true := by
    refine List.any_eq_true.mpr ⟨e, hm, ?_⟩
    rw [Bool.and_comm]
    exact hp
  simp [get_status, hany, h]

/-- A queue view that still reports the task as processing. -/
def processingQueueView : QueueView :=
  ⟨false, false, PyVal.none, "PROCESSING",
   PyVal.dict [("progress", PyVal.int 50), ("message", PyVal.str "Converting to webp")]⟩

/-- Witness for `c2_artifact_presence_wins`: one stored artifact
`abc123_photo.webp` while the queue simultaneously reports processing. -/
theorem c2_artifact_presence_wins_witness :
    get_status asciiPy "abc123" [⟨"abc123_photo.webp", true⟩] processingQueueView =
      StatusResponse.completed "abc123" "abc123_photo.webp" "photo.webp" :=
  c2_artifact_presence_wins asciiPy "abc123" [⟨"abc123_photo.webp", true⟩]
    processingQueueView ⟨"abc123_photo.webp", true⟩ (by decide)

/- ------------------------------------------------------------------
C8: reaper semantics
------------------------------------------------------------------ -/

/-- An entry the reaper keeps: its age does not exceed the TTL. -/
def keepsEntry (now : Int) (e : FsEntry) : Bool :=
  decide (now - e.mtime ≤ cleanupTimeout)

/-- An entry past the TTL. -/
def agedOut (now : Int) (e : FsEntry) : Bool :=
  decide (cleanupTimeout < now - e.mtime)

/-- The entries surviving a reaper pass are exactly those whose age does
not exceed the TTL, whatever entries vanish mid-pass. -/
lemma cleanupLoop_remaining (now : Int) (v : String → Bool) :
    ∀ l : List FsEntry, (cleanupLoop now v l).1 = l.filter (keepsEntry now)
  | [] => rfl
  | e :: rest => by
    have ih := cleanupLoop_remaining now v rest
    rcases e with ⟨n, k, m⟩
    by_cases h : now - m > cleanupTimeout
    · have hc : keepsEntry now ⟨n, k, m⟩ = false := by
        simp only [keepsEntry, decide_eq_false_iff_not]
        omega
      cases k
      · cases hv : v n <;>
          simp [cleanupLoop, h, hv, hc, ih, List.filter_cons]
      · simp [cleanupLoop, h, hc, ih, List.filter_cons]
    · have hc : keepsEntry now ⟨n, k, m⟩ = true := by
        simp only [keepsEntry, decide_eq_true_eq]
        omega
      cases k <;> simp [cleanupLoop, h, hc, ih, List.filter_cons]

/-- With no concurrent deletions, the pass counts exactly the entries
whose age exceeds the TTL. -/
lemma cleanupLoop_count (now : Int) :
    ∀ l : List FsEntry,
      (cleanupLoop now (fun _ => false) l).2 = (l.filter (agedOut now)).length
  | [] => rfl
  | e :: rest => by
    have ih := cleanupLoop_count now rest
    rcases e with ⟨n, k, m⟩
    by_cases h : now - m > cleanupTimeout
    · have hc : agedOut now ⟨n, k, m⟩ = true := by
        simp only [agedOut, decide_eq_true_eq]
        omega
      cases k <;> simp [cleanupLoop, h, hc, ih, List.filter_cons]
    · have hc : agedOut now ⟨n, k, m⟩ = false := by
        simp only [agedOut, decide_eq_false_iff_not]
        omega
      cases k <;> simp [cleanupLoop, h, hc, ih, List.filter_cons]

/-- A pass over entries that are all young deletes nothing and keeps the
directory unchanged. -/
lemma cleanupLoop_young (now : Int) (v : String → Bool) :
    ∀ l : List FsEntry, (∀ e ∈ l, now - e.mtime ≤ cleanupTimeout) →
      cleanupLoop now v l = (l, 0)
  | [], _ => rfl
  | e :: rest, h => by
    have ih := cleanupLoop_young now v rest (fun x hx => h x (List.mem_cons_of_mem _ hx))
    have he := h e (List.mem_cons_self _ _)
    rcases e with ⟨n, k, m⟩
    have hlt : ¬ (now - m > cleanupTimeout) := by
      simp only [FsEntry.mtime] at he
      omega
    cases k <;> simp [cleanupLoop, hlt, ih]

/-- C8: a reaper pass (over an existing directory) keeps exactly the
entries whose age, computed from the modification time, does not exceed
the fixed 15-minute TTL — for every pattern `v1` of entries vanishing
mid-deletion, which is tolerated without affecting the surviving set or
the success status; with no concurrent deletions the reported
`deleted_count` is exactly the number of over-TTL entries; and a second
immediately-consecutive pass (any vanish pattern `v2`) deletes zero
additional entries and leaves the directory unchanged. -/
theorem c8_reaper_ttl_idempotent (now : Int) (entries : List FsEntry)
    (v1 v2 : String → Bool) :
    ((cleanup_temp_files now true entries v1).remaining =
        entries.filter (keepsEntry now)) ∧
    ((cleanup_temp_files now true entries (fun _ => false)).deleted_count =
        (entries.filter (agedOut now)).length) ∧
    ((cleanup_temp_files now true entries v1).status = "success") ∧
    (cleanup_temp_files now true (cleanup_temp_files now true entries v1).remaining v2 =
      ⟨(cleanup_temp_files now true entries v1).remaining, 0, "success", Option.none⟩) := by
  refine ⟨?_, ?_, rfl, ?_⟩
  · simpa [cleanup_temp_files] using cleanupLoop_remaining now v1 entries
  · simpa [cleanup_temp_files] using cleanupLoop_count now entries
  · have hrem := cleanupLoop_remaining now v1 entries
    have hyoung : ∀ e ∈ (cleanupLoop now v1 entries).1,
        now - e.mtime ≤ cleanupTimeout := by
      intro e he
      rw [hrem] at he
      have := List.of_mem_filter he
      simpa [keepsEntry] using this
    have h2 := cleanupLoop_young now v2 _ hyoung
    simp [cleanup_temp_files, h2]

/- ------------------------------------------------------------------
C7: settings bundles carry only their category's fields
------------------------------------------------------------------ -/

/-- The category `get_conversion_settings` resolves a target format to, in
the source's branch order (audio, video, document, default image). -/
def settingsCategory (py : PyUni) (convert_to : String) : String :=
  if audio_formats.contains (py.lower convert_to) then "audio"
  else if video_formats.contains (py.lower convert_to) then "video"
  else if doc_formats.contains (py.lower convert_to) then "doc"
  else "image"

/-- The field names of each category's settings bundle. -/
def bundleKeys : String → List String
  | "audio" => ["remove_metadata", "codec", "bitrate", "sample_rate", "channels",
                "compression_level"]
  | "video" => ["remove_metadata", "codec", "crf", "profile", "level", "speed",
                "bitrate", "fps"]
  | "doc" => ["dpi", "quality"]
  | _ => ["remove_metadata", "compression", "quality", "optimize", "bmp_compression",
          "tga_compression", "pdf_page_size", "avif_speed"]

def categoryNames : List String := ["audio", "video", "doc", "image"]

/-- The fields belonging to `c` and to no other category
(e.g. `crf` is video-only while `codec` is shared by audio and video). -/
def exclusiveKeys (c : String) : List String :=
  (bundleKeys c).filter (fun k =>
    categoryNames.all (fun c2 => c2 == c || !((bundleKeys c2).contains k)))

/-- C7: for every target format and every flat form payload, the key set of
the resolved settings bundle is exactly the field list of the target
format's category; consequently a field exclusive to any other category
(video-only in an image bundle, and symmetrically for every pair) never
occurs among the bundle's keys. -/
theorem c7_settings_bundle_keys (py : PyUni) (convert_to : String) (fd : FormData) :
    ((get_conversion_settings py convert_to fd).map Prod.fst =
        bundleKeys (settingsCategory py convert_to)) ∧
    (∀ c, c ∈ categoryNames → c ≠ settingsCategory py convert_to →
      (exclusiveKeys c).all (fun k =>
        !(((get_conversion_settings py convert_to fd).map Prod.fst).contains k)) = true) := by
  unfold get_conversion_settings settingsCategory
  split_ifs <;>
    refine ⟨rfl, ?_⟩ <;>
    · intro c hc hne
      fin_cases hc <;>
        first
          | exact absurd rfl hne
          | (simp only [List.map_cons, List.map_nil]; decide)

/-- Witness for `c7_settings_bundle_keys`: `dpi` is document-only and does
not occur among the keys of the bundle resolved for target `mp4`. -/
theorem c7_settings_bundle_keys_witness :
    (exclusiveKeys "doc").all (fun k =>
      !(((get_conversion_settings asciiPy "mp4" defaultFormData).map Prod.fst).contains k))
      = true :=
  (c7_settings_bundle_keys asciiPy "mp4" defaultFormData).2 "doc" (by decide) (by decide)

/- ------------------------------------------------------------------
C10: sanitization touches only the stem; the extension is verbatim
------------------------------------------------------------------ -/

/-- A dot-free list is not split. -/
lemma rsplitLast_no_dot : ∀ l : List Char, '.' ∉ l → rsplitLast l = (l, Option.none)
  | [], _ => rfl
  | c :: rest, h => by
    have ih := rsplitLast_no_dot rest (fun hm => h (List.mem_cons_of_mem _ hm))
    have hc : ¬ (c == '.') = true := by
      simp only [beq_iff_eq]
      intro hh
      exact h (hh ▸ List.mem_cons_self _ _)
    simp [rsplitLast, ih, hc]

/-- Splitting at the last dot recovers the parts around a final dot-free
extension, whatever dots the stem contains. -/
lemma rsplitLast_append : ∀ S E : List Char, '.' ∉ E →
    rsplitLast (S ++ '.' :: E) = (S, some E)
  | [], E, h => by
    have h1 := rsplitLast_no_dot E h
    simp [rsplitLast, h1]
  | c :: S, E, h => by
    have ih := rsplitLast_append S E h
    simp [rsplitLast, ih]

/-- The stem-only part of `sanitize_filename`: character replacement,
placeholder/space collapsing, truncation (bounded in terms of the
lowercased extension's length), stripping and the default stem — exactly
the steps the source applies to `name`. -/
def stemPipeline (py : PyUni) (stem lowext : List Char) : List Char :=
  let name := stem.map (fun c =>
    if py.isWord c || c == '-' || c == '.' || c == ' ' then c else '_')
  let name := collapseRuns '_' name
  let name := collapseRuns ' ' name
  let max_name_length : Int :=
    if lowext ≠ [] then 100 - (lowext.length : Int) - 1 else 100
  let name := pyTakeTo name max_name_length
  let name := pyStrip name
  if name = [] then "converted_image".data else name

/-- C10: when the (normalized) filename contains a dot, `sanitize_filename`
factors into the stem pipeline applied to the part before the last dot,
with the part after the last dot re-attached lowercased but otherwise
verbatim — no character of the extension passes through the replacement,
collapsing, truncation or stripping steps, whatever characters it contains.
In particular, splitting the output at its last dot recovers exactly the
processed stem and the lowercased extension. -/
theorem c10_extension_verbatim (py : PyUni) (filename : String) (stem ext : List Char)
    (hsplit : rsplitLast (py.nfkd filename).data = (stem, some ext))
    (hdot : '.' ∉ (py.lower (String.mk ext)).data) :
    ((py.lower (String.mk ext)).data ≠ [] →
      (sanitize_filename py filename).data =
        stemPipeline py stem (py.lower (String.mk ext)).data ++
          '.' :: (py.lower (String.mk ext)).data ∧
      rsplitLast (sanitize_filename py filename).data =
        (stemPipeline py stem (py.lower (String.mk ext)).data,
         some (py.lower (String.mk ext)).data)) ∧
    ((py.lower (String.mk ext)).data = [] →
      (sanitize_filename py filename).data = stemPipeline py stem []) := by
  constructor
  · intro hne
    have h1 : (sanitize_filename py filename).data =
        stemPipeline py stem (py.lower (String.mk ext)).data ++
          '.' :: (py.lower (String.mk ext)).data := by
      simp [sanitize_filename, stemPipeline, hsplit, hne]
    refine ⟨h1, ?_⟩
    rw [h1]
    exact rsplitLast_append _ _ hdot
  · intro he
    simp [sanitize_filename, stemPipeline, hsplit, he]

/-- Witness for `c10_extension_verbatim` at `a b.Q?Z`: the extension
contains `?`, a character outside the stem's allow-list, and survives
verbatim (lowercased) in the output `a b.q?z`. -/
theorem c10_extension_verbatim_witness :
    (sanitize_filename asciiPy "a b.Q?Z").data =
      stemPipeline asciiPy "a b".data "q?z".data ++ '.' :: "q?z".data ∧
    rsplitLast (sanitize_filename asciiPy "a b.Q?Z").data =
      (stemPipeline asciiPy "a b".data "q?z".data, some "q?z".data) :=
  (c10_extension_verbatim asciiPy "a b.Q?Z" "a b".data "Q?Z".data
    (by decide) (by decide)).1 (by decide)

end ConvertiFile
